import Mathlib

/-!
Shallow embedding of the two tool servers of this repository
(`src/web_search.py` and `src/github3.py`) together with proofs of the
stated behavioural properties.

Modelling conventions:
* Python exceptions are modelled by the `Except`-style type `PyRes`;
  a Python `try`/`except` is an explicit `match` on that result.
* JSON values (the result of `response.json()`) are modelled by `JVal`.
* The single outbound HTTP request of each operation is modelled by
  passing the would-be response (or a transport failure) as an argument;
  each operation additionally reports whether the network was reached.
* String-processing library calls (`urllib.parse`, `base64`, `str.strip`)
  are modelled at the ASCII/code-point level, faithful to the Python
  behaviour on the ASCII inputs the claims are about.
-/

namespace McpSpec

/-- Model of the Python exceptions the embedded code can raise. -/
inductive PyExc where
  | keyError (key : String)
  | typeError (msg : String)
  | attributeError (msg : String)
  | valueError (msg : String)
  | indexError (msg : String)
  | binasciiError (msg : String)
  | unicodeDecodeError (msg : String)
  | requestException (msg : String)
  deriving DecidableEq, Repr

/-- Result of a Python computation: a value, or a raised exception. -/
abbrev PyRes (α : Type) := Except PyExc α

/-- Python `str(e)` for the modelled exceptions (`str(KeyError(k))` is the
repr of the key, i.e. quoted). -/
def excStr : PyExc → String
  | .keyError k => "'" ++ k ++ "'"
  | .typeError m => m
  | .attributeError m => m
  | .valueError m => m
  | .indexError m => m
  | .binasciiError m => m
  | .unicodeDecodeError m => m
  | .requestException m => m

/-- Model of a JSON value as returned by `response.json()`. -/
inductive JVal where
  | null
  | bool (b : Bool)
  | num (n : Int)
  | str (s : String)
  | arr (xs : List JVal)
  | obj (fields : List (String × JVal))

/-- Python `v == "s"` for a JSON value: true only when `v` is that string. -/
def jEqStr : JVal → String → Bool
  | .str t, s => t == s
  | _, _ => false

/-- Whether the value is a JSON object (`isinstance(v, dict)`). -/
def isObj : JVal → Bool
  | .obj _ => true
  | _ => false

/-- Whether the value is a JSON array (`isinstance(v, list)`). -/
def isArr : JVal → Bool
  | .arr _ => true
  | _ => false

/-- Python truthiness of a JSON value (`if not items:`). -/
def jTruthy : JVal → Bool
  | .null => false
  | .bool b => b
  | .num n => n != 0
  | .str s => s != ""
  | .arr xs => !xs.isEmpty
  | .obj fs => !fs.isEmpty

/-- First binding of key `k` in an object's field list (Python dicts have
unique keys; on duplicates the first occurrence is the model's value). -/
def objFind (fields : List (String × JVal)) (k : String) : Option JVal :=
  (fields.find? (fun p => p.1 == k)).map (fun p => p.2)

/-- Whether an object's field list has the key `k`. -/
def objHasKey (fields : List (String × JVal)) (k : String) : Bool :=
  fields.any (fun p => p.1 == k)

/-- Whether the first char list is an initial segment of the second. -/
def charsStartWith : List Char → List Char → Bool
  | [], _ => true
  | _ :: _, [] => false
  | a :: ps, b :: ss => a == b && charsStartWith ps ss

/-- Whether `p` occurs as a contiguous run inside the second list. -/
def charsContain (p : List Char) : List Char → Bool
  | [] => p.isEmpty
  | c :: rest => charsStartWith p (c :: rest) || charsContain p rest

/-- Python string membership `pat in s` (substring test). -/
def strIn (pat s : String) : Bool :=
  charsContain pat.data s.data

/-- Python `k in v` for a string `k`: key membership for dicts, element
membership for lists, substring test for strings, `TypeError` otherwise. -/
def pyIn (k : String) : JVal → PyRes Bool
  | .obj fs => .ok (objHasKey fs k)
  | .arr xs => .ok (xs.any (fun x => jEqStr x k))
  | .str s => .ok (strIn k s)
  | _ => .error (.typeError "argument is not iterable")

/-- Python subscript `v[k]` with a string key: dict lookup raising
`KeyError` when absent, `TypeError` on any non-dict. -/
def pySubscr (v : JVal) (k : String) : PyRes JVal :=
  match v with
  | .obj fs =>
    match objFind fs k with
    | some x => .ok x
    | none => .error (.keyError k)
  | .arr _ => .error (.typeError "list indices must be integers or slices, not str")
  | .str _ => .error (.typeError "string indices must be integers")
  | _ => .error (.typeError "object is not subscriptable")

/-- Python `v.get(k, d)`: dict lookup with default, `AttributeError` on a
non-dict receiver. -/
def pyGet (v : JVal) (k : String) (d : JVal) : PyRes JVal :=
  match v with
  | .obj fs => .ok ((objFind fs k).getD d)
  | _ => .error (.attributeError "object has no attribute get")

/-- Rendering of a JSON value inside an f-string (`str(v)`).  Scalar values
are rendered exactly as Python renders them; the container arms are a
placeholder (no claim exercises them). -/
def pyStr : JVal → String
  | .null => "None"
  | .bool true => "True"
  | .bool false => "False"
  | .num n => toString n
  | .str s => s
  | .arr _ => "[...]"
  | .obj _ => "\x7b...\x7d"

/-! ## Embedding of `src/web_search.py` -/

/-- ASCII whitespace, as stripped by Python `str.strip()`. -/
def isPySpace (c : Char) : Bool :=
  c = ' ' || c = '\t' || c = '\n' || c = '\r' || c = '\x0b' || c = '\x0c'

/-- Python `str.strip()` (ASCII-whitespace model): drop leading and
trailing whitespace. -/
def pyStrip (s : String) : String :=
  ⟨((s.data.dropWhile isPySpace).reverse.dropWhile isPySpace).reverse⟩

/-- Hex digit value, for percent-decoding. -/
def hexVal (c : Char) : Option Nat :=
  if '0' ≤ c ∧ c ≤ '9' then some (c.toNat - '0'.toNat)
  else if 'a' ≤ c ∧ c ≤ 'f' then some (c.toNat - 'a'.toNat + 10)
  else if 'A' ≤ c ∧ c ≤ 'F' then some (c.toNat - 'A'.toNat + 10)
  else none

/-- Percent-decoding of `%XY` escapes; invalid escapes are kept verbatim,
as in `urllib.parse.unquote`.  (Code-point-level model of the byte-level
decode; exact on ASCII escapes.) -/
def pctDecode : List Char → List Char
  | [] => []
  | ['%'] => ['%']
  | ['%', a] => ['%', a]
  | '%' :: a :: b :: rest =>
    match hexVal a, hexVal b with
    | some x, some y => Char.ofNat (16 * x + y) :: pctDecode rest
    | _, _ => '%' :: pctDecode (a :: b :: rest)
  | c :: rest => c :: pctDecode rest

/-- `urllib.parse.unquote_plus`: `+` becomes a space, then `%XY` escapes
are decoded. -/
def unquote_plus (s : String) : String :=
  ⟨pctDecode (s.data.map (fun c => if c = '+' then ' ' else c))⟩

/-- Split a string at the first occurrence of `sep` (Python
`s.split(sep, 1)`): `none` when `sep` does not occur. -/
def breakAt (sep : Char) : List Char → Option (List Char × List Char)
  | [] => none
  | c :: rest =>
    if c = sep then some ([], rest)
    else
      match breakAt sep rest with
      | some (l, r) => some (c :: l, r)
      | none => none

/-- Longest prefix free of the stop characters, and the remainder
(used for `urllib.parse._splitnetloc`). -/
def takeUntilAny (stops : List Char) : List Char → List Char × List Char
  | [] => ([], [])
  | c :: rest =>
    if stops.contains c then ([], c :: rest)
    else
      let p := takeUntilAny stops rest
      (c :: p.1, p.2)

/-- Python `s.split(sep)` for a one-character separator, on char lists:
`"a&&b"` gives `["a", "", "b"]` and the empty string gives `[""]`. -/
def splitChars (sep : Char) : List Char → List (List Char)
  | [] => [[]]
  | c :: rest =>
    let r := splitChars sep rest
    if c = sep then [] :: r
    else
      match r with
      | h :: t => (c :: h) :: t
      | [] => [[c]]

/-- Python `s.split(sep)` for a one-character separator. -/
def pySplit (s : String) (sep : Char) : List String :=
  (splitChars sep s.data).map (fun cs => ⟨cs⟩)

/-- `urllib.parse.parse_qsl` with default arguments: split the query on
`&`, skip empty fields, skip fields without `=` or with an empty value
(`keep_blank_values=False`), and percent-decode names and values. -/
def parse_qsl (qs : String) : List (String × String) :=
  (splitChars '&' qs.data).filterMap (fun field =>
    match field with
    | [] => none
    | _ :: _ =>
      match breakAt '=' field with
      | none => none
      | some (_, []) => none
      | some (n, v) => some (unquote_plus ⟨n⟩, unquote_plus ⟨v⟩))

/-- Append one parsed pair to the dict-of-lists built by `parse_qs`. -/
def qsInsert (d : List (String × List String)) (k v : String) : List (String × List String) :=
  match d with
  | [] => [(k, [v])]
  | (k0, vs) :: rest =>
    if k0 = k then (k0, vs ++ [v]) :: rest
    else (k0, vs) :: qsInsert rest k v

/-- `urllib.parse.parse_qs`: the parsed pairs grouped into a dict mapping
each name to the list of its values, in order. -/
def parse_qs (qs : String) : List (String × List String) :=
  (parse_qsl qs).foldl (fun d p => qsInsert d p.1 p.2) []

/-- The `query` component produced by `urllib.parse.urlparse` for a link
that begins with `/` (the only inputs the extractor parses): the netloc of
a `//`-prefixed link is split off first and checked for unbalanced
brackets (raising `ValueError "Invalid IPv6 URL"` as CPython does), then
the fragment (after the first `#`) is removed, and the query is what
follows the first `?`. -/
def urlsplitQuery (url : String) : PyRes String :=
  let cs := url.data
  let rest : PyRes (List Char) :=
    match cs with
    | '/' :: '/' :: tail =>
      let p := takeUntilAny ['/', '?', '#'] tail
      if (p.1.contains '[' && !p.1.contains ']') || (p.1.contains ']' && !p.1.contains '[') then
        .error (.valueError "Invalid IPv6 URL")
      else .ok p.2
    | _ => .ok cs
  match rest with
  | .error e => .error e
  | .ok cs2 =>
    let beforeFrag :=
      match breakAt '#' cs2 with
      | some (l, _) => l
      | none => cs2
    match breakAt '?' beforeFrag with
    | some (_, q) => .ok ⟨q⟩
    | none => .ok ""

/-- Body of the `try` block of the link-normalization step of
`search_duckduckgo`: parse the redirect link's query parameters and, when
the `uddg` parameter is present, take its first value; otherwise prefix
the provider origin onto the relative link.  Any raised exception
(`ValueError` from parsing, `IndexError` from the `[0]` subscript)
surfaces as a `PyRes` error. -/
def resolveAttempt (link : String) : PyRes String := do
  let q ← urlsplitQuery link
  let qp := parse_qs q
  match qp.find? (fun p => p.1 == "uddg") with
  | some p =>
    match p.2 with
    | v :: _ => pure v
    | [] => .error (.indexError "list index out of range")
  | none => pure ("https://duckduckgo.com" ++ link)

/-- Link normalization of `search_duckduckgo` (lines 44-54 of
`src/web_search.py`): links that do not begin with `/` pass through; for
redirect-wrapped links the `try` body runs and the bare `except:` falls
back to the origin-prefixed relative path. -/
def resolveLink (link : String) : String :=
  if charsStartWith ['/'] link.data then
    match resolveAttempt link with
    | .ok l => l
    | .error _ => "https://duckduckgo.com" ++ link
  else link

/-- The title anchor of a result block: its text and `href` attribute. -/
structure TitleElem where
  text : String
  href : String
  deriving DecidableEq, Repr

/-- One parsed `div.result` block: the title anchor and the snippet
anchor, each possibly absent (`find` returning `None`). -/
structure ResultBlock where
  titleElem : Option TitleElem
  snippetText : Option String
  deriving DecidableEq, Repr

/-- A Python dict of strings (one search-result record). -/
abbrev Record := List (String × String)

/-- Whether a record has the given key. -/
def recHasKey (r : Record) (k : String) : Bool :=
  r.any (fun p => p.1 == k)

/-- Record lookup with a default. -/
def recGet (r : Record) (k : String) (d : String) : String :=
  ((r.find? (fun p => p.1 == k)).map (fun p => p.2)).getD d

/-- The record built for one valid result block. -/
def mkRecord (title link snippet : String) : Record :=
  [("title", title), ("link", link), ("snippet", snippet)]

/-- The result-extraction loop of `search_duckduckgo`: blocks missing the
title or the snippet element are skipped; a valid block contributes one
record (title stripped, link normalized, snippet stripped); after each
append the loop breaks as soon as the collected count reaches
`num_results`. -/
def extractLoop (numResults : Nat) : List ResultBlock → List Record → List Record
  | [], acc => acc
  | b :: rest, acc =>
    match b.titleElem, b.snippetText with
    | some te, some sn =>
      let acc2 := acc ++ [mkRecord (pyStrip te.text) (resolveLink te.href) (pyStrip sn)]
      if numResults ≤ acc2.length then acc2
      else extractLoop numResults rest acc2
    | _, _ => extractLoop numResults rest acc

/-- Result records extracted from the parsed page. -/
def extractResults (blocks : List ResultBlock) (numResults : Nat) : List Record :=
  extractLoop numResults blocks []

/-- Outcome of the search request plus parse: either some exception was
raised inside the `try` block (network error, `raise_for_status`,
timeout), or the page was parsed into a list of result blocks. -/
inductive FetchOutcome where
  | failure (msg : String)
  | success (blocks : List ResultBlock)

/-- `search_duckduckgo(query, num_results)`: on any transport failure the
`except` arm returns the single error record; otherwise the extraction
loop runs over the parsed blocks. -/
def search_duckduckgo (o : FetchOutcome) (numResults : Nat) : List Record :=
  match o with
  | .failure e => [[("error", e)]]
  | .success blocks => extractResults blocks numResults

/-- Formatting of one record by `web_search` (1-based index). -/
def fmtResult (i : Nat) (r : Record) : String :=
  "\nResult " ++ toString i ++ ":\nTitle: " ++ recGet r "title" "No title" ++
  "\nURL: " ++ recGet r "link" "No link" ++
  "\nSnippet: " ++ recGet r "snippet" "No description available" ++ "\n"

/-- The `enumerate(results, 1)` formatting loop of `web_search`. -/
def fmtResultsFrom (i : Nat) : List Record → List String
  | [] => []
  | r :: rest => fmtResult i r :: fmtResultsFrom (i + 1) rest

/-- The `web_search` tool: runs the search with a maximum of 15 results,
surfaces an error record as an `Error:` message, reports an empty result
list, and otherwise joins the formatted records. -/
def web_search (o : FetchOutcome) : String :=
  let results := search_duckduckgo o 15
  match results with
  | [] => "No search results found."
  | r :: _ =>
    if recHasKey r "error" then "Error: " ++ recGet r "error" ""
    else String.intercalate "\n---\n" (fmtResultsFrom 1 results)

/-! ## Embedding of `src/github3.py` -/

/-- The HTTP response an operation's single outbound request would
receive: status code, body text, and parsed JSON body. -/
structure HttpResponse where
  status_code : Nat
  text : String
  json : JVal

/-- `get_github_contents`: on a non-200 status the error object is
returned; otherwise the parsed JSON body. -/
def get_github_contents (resp : HttpResponse) : JVal :=
  if resp.status_code ≠ 200 then
    .obj [("error", .str ("GitHub API error: " ++ toString resp.status_code ++ " - " ++ resp.text))]
  else resp.json

/-- Value of a base64-alphabet character. -/
def b64Val (c : Char) : Option Nat :=
  if 'A' ≤ c ∧ c ≤ 'Z' then some (c.toNat - 'A'.toNat)
  else if 'a' ≤ c ∧ c ≤ 'z' then some (c.toNat - 'a'.toNat + 26)
  else if '0' ≤ c ∧ c ≤ '9' then some (c.toNat - '0'.toNat + 52)
  else if c = '+' then some 62
  else if c = '/' then some 63
  else none

/-- Decode a run of base64 digit values (6 bits each) into bytes; a
trailing group of a single digit is invalid padding. -/
def b64Quads : List Nat → Option (List Nat)
  | [] => some []
  | [_] => none
  | [a, b] => some [a * 4 + b / 16]
  | [a, b, c] => some [a * 4 + b / 16, (b % 16) * 16 + c / 4]
  | a :: b :: c :: d :: rest =>
    (b64Quads rest).map (fun bs =>
      (a * 4 + b / 16) :: ((b % 16) * 16 + c / 4) :: ((c % 4) * 64 + d) :: bs)

/-- `base64.b64decode` with `validate=False`: characters outside the
alphabet (and `=`) are discarded, the kept length must be a multiple of
four, data after the first `=` is padding, and a leftover single digit is
invalid padding. -/
def b64decode (s : String) : PyRes (List Nat) :=
  let kept := s.data.filter (fun c => (b64Val c).isSome || c = '=')
  if kept.length % 4 ≠ 0 then .error (.binasciiError "Incorrect padding")
  else
    match b64Quads ((kept.takeWhile (fun c => c ≠ '=')).filterMap b64Val) with
    | some bs => .ok bs
    | none => .error (.binasciiError "Invalid padding")

/-- Whether a byte is a UTF-8 continuation byte. -/
def isCont (b : Nat) : Bool := 0x80 ≤ b && b ≤ 0xBF

/-- Strict UTF-8 decoding of a byte list (rejecting overlong forms and
surrogates), as `bytes.decode("utf-8")`. -/
def utf8Chars : List Nat → Option (List Char)
  | [] => some []
  | b :: rest =>
    if b < 0x80 then (utf8Chars rest).map (fun cs => Char.ofNat b :: cs)
    else if b < 0xC2 then none
    else if b ≤ 0xDF then
      match rest with
      | c1 :: rest2 =>
        if isCont c1 then
          (utf8Chars rest2).map (fun cs => Char.ofNat ((b - 0xC0) * 64 + (c1 - 0x80)) :: cs)
        else none
      | [] => none
    else if b ≤ 0xEF then
      match rest with
      | c1 :: c2 :: rest2 =>
        if isCont c1 && isCont c2 then
          let cp := (b - 0xE0) * 4096 + (c1 - 0x80) * 64 + (c2 - 0x80)
          if 0x800 ≤ cp && !(0xD800 ≤ cp && cp ≤ 0xDFFF) then
            (utf8Chars rest2).map (fun cs => Char.ofNat cp :: cs)
          else none
        else none
      | _ => none
    else if b ≤ 0xF4 then
      match rest with
      | c1 :: c2 :: c3 :: rest2 =>
        if isCont c1 && isCont c2 && isCont c3 then
          let cp := (b - 0xF0) * 262144 + (c1 - 0x80) * 4096 + (c2 - 0x80) * 64 + (c3 - 0x80)
          if 0x10000 ≤ cp && cp ≤ 0x10FFFF then
            (utf8Chars rest2).map (fun cs => Char.ofNat cp :: cs)
          else none
        else none
      | _ => none
    else none

/-- `base64.b64decode(s).decode("utf-8")`. -/
def pyB64DecodeUtf8 (s : String) : PyRes String := do
  let bs ← b64decode s
  match utf8Chars bs with
  | some cs => pure ⟨cs⟩
  | none => .error (.unicodeDecodeError "invalid utf-8 sequence")

/-- The validation error message shared by the three repo operations. -/
def repoFormatError (repo : String) : String :=
  "Error: Repository format should be 'owner/repo', got '" ++ repo ++ "'"

/-- The part of `github_get_file` that runs after the repository
reference passed validation, over the `get_github_contents` result. -/
def githubGetFileBody (contents : JVal) (file_path : String) : PyRes String := do
  let hasErr ← pyIn "error" contents
  if hasErr then
    let e ← pySubscr contents "error"
    pure ("Error: " ++ pyStr e)
  else
    let hasType ← pyIn "type" contents
    if isObj contents && hasType then
      let t ← pySubscr contents "type"
      if !jEqStr t "file" then
        pure ("Error: Path '" ++ file_path ++ "' is not a file")
      else
        let hasContent ← pyIn "content" contents
        if hasContent then
          let enc ← pySubscr contents "encoding"
          if jEqStr enc "base64" then
            let c ← pySubscr contents "content"
            match c with
            | .str cs => pyB64DecodeUtf8 cs
            | _ => .error (.typeError "argument should be a bytes-like object or ASCII string")
          else pure "Error: Could not decode file content"
        else pure "Error: Could not decode file content"
    else pure "Error: Unexpected API response format"

/-- `github_get_file(repo, file_path, branch)`: result of the call and
whether the outbound request was issued. -/
def github_get_file (resp : HttpResponse) (repo file_path : String) : PyRes String × Bool :=
  if (pySplit repo '/').length ≠ 2 then (.ok (repoFormatError repo), false)
  else (githubGetFileBody (get_github_contents resp) file_path, true)

/-- The block `github_list_directory` formats for one directory entry
(the `item["type"]`/`item["name"]`/`item["path"]` subscripts raise
`KeyError` on a missing key). -/
def formatDirItem (item : JVal) : PyRes String := do
  let t ← pySubscr item "type"
  let n ← pySubscr item "name"
  let p ← pySubscr item "path"
  let sz ←
    if jEqStr t "file" then pyGet item "size" (.str "N/A")
    else pure (JVal.str "N/A")
  pure ("\nType: " ++ pyStr t ++ "\nName: " ++ pyStr n ++ "\nPath: " ++ pyStr p ++
        "\nSize: " ++ pyStr sz ++ " bytes\n")

/-- The formatting loop of `github_list_directory` over the entries. -/
def dirBlocks : List JVal → PyRes (List String)
  | [] => pure []
  | it :: rest => do
    let b ← formatDirItem it
    let bs ← dirBlocks rest
    pure (b :: bs)

/-- The part of `github_list_directory` after repository validation. -/
def githubListDirectoryBody (contents : JVal) (path : String) : PyRes String := do
  let hasErr ← pyIn "error" contents
  if hasErr then
    let e ← pySubscr contents "error"
    pure ("Error: " ++ pyStr e)
  else
    match contents with
    | .arr items => do
      let bs ← dirBlocks items
      pure (String.intercalate "\n---\n" bs)
    | _ => pure ("Error: Path '" ++ path ++ "' is not a directory or the API returned unexpected data")

/-- `github_list_directory(repo, path, branch)`: result of the call and
whether the outbound request was issued. -/
def github_list_directory (resp : HttpResponse) (repo path : String) : PyRes String × Bool :=
  if (pySplit repo '/').length ≠ 2 then (.ok (repoFormatError repo), false)
  else (githubListDirectoryBody (get_github_contents resp) path, true)

/-- The `enumerate(items, 1)` formatting loop of `github_search_code`:
missing fields fall back to `Unknown` via `dict.get`; a non-dict item
makes `get` raise. -/
def searchBlocks (i : Nat) : List JVal → PyRes (List String)
  | [] => pure []
  | it :: rest => do
    let nm ← pyGet it "name" (.str "Unknown")
    let p ← pyGet it "path" (.str "Unknown")
    let u ← pyGet it "html_url" (.str "Unknown")
    let bs ← searchBlocks (i + 1) rest
    pure (("\nResult " ++ toString i ++ ":\nName: " ++ pyStr nm ++ "\nPath: " ++ pyStr p ++
           "\nURL: " ++ pyStr u ++ "\n") :: bs)

/-- The part of `github_search_code` after repository validation. -/
def githubSearchCodeBody (resp : HttpResponse) : PyRes String := do
  if resp.status_code ≠ 200 then
    pure ("Error: GitHub API error: " ++ toString resp.status_code ++ " - " ++ resp.text)
  else
    let items ← pyGet resp.json "items" (.arr [])
    if !jTruthy items then pure "No matching files found."
    else
      match items with
      | .arr xs => do
        let bs ← searchBlocks 1 xs
        pure (String.intercalate "\n---\n" bs)
      | _ => .error (.typeError "object is not iterable")

/-- `github_search_code(repo, query, branch)`: result of the call and
whether the outbound request was issued. -/
def github_search_code (resp : HttpResponse) (repo : String) : PyRes String × Bool :=
  if (pySplit repo '/').length ≠ 2 then (.ok (repoFormatError repo), false)
  else (githubSearchCodeBody resp, true)

/-- Outcome of the probe request of `check_github_connection`: either the
request itself raised, or a response arrived. -/
inductive ProbeOutcome where
  | raised (msg : String)
  | response (r : HttpResponse)

/-- The `rate_limit_info.get("resources", {}).get("core", {}).get("remaining", 0)`
chain (each `get` raises `AttributeError` on a non-dict receiver). -/
def rateRemaining (j : JVal) : PyRes JVal := do
  let rs ← pyGet j "resources" (.obj [])
  let core ← pyGet rs "core" (.obj [])
  pyGet core "remaining" (.num 0)

/-- The `try` body of `check_github_connection`. -/
def checkConnBody (o : ProbeOutcome) : PyRes String :=
  match o with
  | .raised m => .error (.requestException m)
  | .response r =>
    if r.status_code = 200 then do
      let remaining ← rateRemaining r.json
      pure ("GitHub API connection successful. Remaining rate limit: " ++ pyStr remaining ++ " requests.")
    else
      pure ("Error connecting to GitHub API: " ++ toString r.status_code ++ " - " ++ r.text)

/-- `check_github_connection()`: the blanket `except` turns any raised
exception into a textual error message. -/
def check_github_connection (o : ProbeOutcome) : String :=
  match checkConnBody o with
  | .ok s => s
  | .error e => "Error: " ++ excStr e

/-! ## Lemmas about the extraction loop -/

theorem extractLoop_nil (n : Nat) (acc : List Record) : extractLoop n [] acc = acc := rfl

/-- A valid block appends its record and the loop breaks exactly when the
count reaches the maximum. -/
theorem extractLoop_cons_valid (n : Nat) (b : ResultBlock) (rest : List ResultBlock)
    (acc : List Record) (te : TitleElem) (sn : String)
    (ht : b.titleElem = some te) (hs : b.snippetText = some sn) :
    extractLoop n (b :: rest) acc =
      (let acc2 := acc ++ [mkRecord (pyStrip te.text) (resolveLink te.href) (pyStrip sn)]
       if n ≤ acc2.length then acc2 else extractLoop n rest acc2) := by
  simp only [extractLoop, ht, hs]

/-- A block missing the title or the snippet element is skipped. -/
theorem extractLoop_cons_invalid (n : Nat) (b : ResultBlock) (rest : List ResultBlock)
    (acc : List Record) (h : b.titleElem = none ∨ b.snippetText = none) :
    extractLoop n (b :: rest) acc = extractLoop n rest acc := by
  rcases hs : b.snippetText with _ | sn <;> rcases ht : b.titleElem with _ | te <;>
    simp only [extractLoop, ht, hs]
  rcases h with h | h
  · rw [ht] at h; cases h
  · rw [hs] at h; cases h

/-- While the accumulator is below the maximum, the loop never pushes the
count past the maximum. -/
theorem extractLoop_length_le (n : Nat) (blocks : List ResultBlock) :
    ∀ acc : List Record, acc.length < n → (extractLoop n blocks acc).length ≤ n := by
  induction blocks with
  | nil => intro acc h; exact Nat.le_of_lt h
  | cons b rest ih =>
    intro acc h
    rcases ht : b.titleElem with _ | te
    · rw [extractLoop_cons_invalid n b rest acc (Or.inl ht)]; exact ih acc h
    · rcases hs : b.snippetText with _ | sn
      · rw [extractLoop_cons_invalid n b rest acc (Or.inr hs)]; exact ih acc h
      · rw [extractLoop_cons_valid n b rest acc te sn ht hs]
        simp only
        have hlen : (acc ++ [mkRecord (pyStrip te.text) (resolveLink te.href) (pyStrip sn)]).length
            = acc.length + 1 := by simp
        by_cases hle : n ≤ (acc ++ [mkRecord (pyStrip te.text) (resolveLink te.href) (pyStrip sn)]).length
        · simp only [hle, if_true]; omega
        · simp only [hle, if_false]
          exact ih _ (by omega)

/-- Once the loop has produced a full result list, appending further
blocks to the page does not change the outcome: the loop broke before
reaching them. -/
theorem extractLoop_stop (n : Nat) (bs1 : List ResultBlock) :
    ∀ (bs2 : List ResultBlock) (acc : List Record), acc.length < n →
      (extractLoop n bs1 acc).length = n →
      extractLoop n (bs1 ++ bs2) acc = extractLoop n bs1 acc := by
  induction bs1 with
  | nil =>
    intro bs2 acc hacc hfull
    rw [extractLoop_nil] at hfull
    omega
  | cons b rest ih =>
    intro bs2 acc hacc hfull
    rcases ht : b.titleElem with _ | te
    · rw [List.cons_append, extractLoop_cons_invalid n b (rest ++ bs2) acc (Or.inl ht),
        extractLoop_cons_invalid n b rest acc (Or.inl ht)]
      rw [extractLoop_cons_invalid n b rest acc (Or.inl ht)] at hfull
      exact ih bs2 acc hacc hfull
    · rcases hs : b.snippetText with _ | sn
      · rw [List.cons_append, extractLoop_cons_invalid n b (rest ++ bs2) acc (Or.inr hs),
          extractLoop_cons_invalid n b rest acc (Or.inr hs)]
        rw [extractLoop_cons_invalid n b rest acc (Or.inr hs)] at hfull
        exact ih bs2 acc hacc hfull
      · rw [List.cons_append, extractLoop_cons_valid n b (rest ++ bs2) acc te sn ht hs,
          extractLoop_cons_valid n b rest acc te sn ht hs]
        rw [extractLoop_cons_valid n b rest acc te sn ht hs] at hfull
        simp only at hfull ⊢
        by_cases hle : n ≤ (acc ++ [mkRecord (pyStrip te.text) (resolveLink te.href) (pyStrip sn)]).length
        · simp only [hle, if_true]
        · simp only [hle, if_false]
          simp only [hle, if_false] at hfull
          refine ih bs2 _ ?_ hfull
          simp only [List.length_append, List.length_cons, List.length_nil] at hle ⊢
          omega

/-- Dropping the invalid blocks from the page does not change the loop's
output. -/
theorem extractLoop_filter (n : Nat) (blocks : List ResultBlock) :
    ∀ acc : List Record,
      extractLoop n blocks acc =
        extractLoop n (blocks.filter (fun b => b.titleElem.isSome && b.snippetText.isSome)) acc := by
  induction blocks with
  | nil => intro acc; rfl
  | cons b rest ih =>
    intro acc
    rcases ht : b.titleElem with _ | te
    · rw [extractLoop_cons_invalid n b rest acc (Or.inl ht)]
      have hf : (b :: rest).filter (fun b => b.titleElem.isSome && b.snippetText.isSome) =
          rest.filter (fun b => b.titleElem.isSome && b.snippetText.isSome) := by
        simp [List.filter_cons, ht]
      rw [hf]; exact ih acc
    · rcases hs : b.snippetText with _ | sn
      · rw [extractLoop_cons_invalid n b rest acc (Or.inr hs)]
        have hf : (b :: rest).filter (fun b => b.titleElem.isSome && b.snippetText.isSome) =
            rest.filter (fun b => b.titleElem.isSome && b.snippetText.isSome) := by
          simp [List.filter_cons, ht, hs]
        rw [hf]; exact ih acc
      · have hf : (b :: rest).filter (fun b => b.titleElem.isSome && b.snippetText.isSome) =
            b :: rest.filter (fun b => b.titleElem.isSome && b.snippetText.isSome) := by
          simp [List.filter_cons, ht, hs]
        rw [hf, extractLoop_cons_valid n b rest acc te sn ht hs,
          extractLoop_cons_valid n b _ acc te sn ht hs]
        simp only
        by_cases hle : n ≤ (acc ++ [mkRecord (pyStrip te.text) (resolveLink te.href) (pyStrip sn)]).length
        · simp only [hle, if_true]
        · simp only [hle, if_false]; exact ih _

/-! ## Claim theorems for the search extractor -/

theorem pyBind_ok {α β : Type} (a : α) (f : α → PyRes β) :
    (Except.ok a : PyRes α) >>= f = f a := rfl

theorem pyBind_err {α β : Type} (e : PyExc) (f : α → PyRes β) :
    (Except.error e : PyRes α) >>= f = Except.error e := rfl

/-- Claim C1: for every extracted result link that begins with `/`, the
extractor resolves it by parsing the link's query parameters; when the
`uddg` parameter is present the final link is that parameter's first
value; when it is absent the final link is `https://duckduckgo.com`
prefixed onto the relative path; and when parsing raises, the same
origin-prefixed relative path is used, with no exception escaping the
normalization step. -/
theorem c1_redirect_link_resolution (link : String)
    (h : charsStartWith ['/'] link.data = true) :
    (∀ q p v tl, urlsplitQuery link = .ok q →
        (parse_qs q).find? (fun x => x.1 == "uddg") = some p → p.2 = v :: tl →
        resolveLink link = v) ∧
    (∀ q, urlsplitQuery link = .ok q →
        (parse_qs q).find? (fun x => x.1 == "uddg") = none →
        resolveLink link = "https://duckduckgo.com" ++ link) ∧
    (∀ e, urlsplitQuery link = .error e →
        resolveLink link = "https://duckduckgo.com" ++ link) := by
  refine ⟨?_, ?_, ?_⟩
  · intro q p v tl hq hfind hv
    simp only [resolveLink, h, if_true, resolveAttempt, hq, pyBind_ok, hfind, hv]
    rfl
  · intro q hq hfind
    simp only [resolveLink, h, if_true, resolveAttempt, hq, pyBind_ok, hfind]
    rfl
  · intro e he
    simp only [resolveLink, h, if_true, resolveAttempt, he, pyBind_err]

/-- Witness for claim C1: a wrapped link with a percent-encoded `uddg`
destination resolves to the decoded destination; a relative link without
`uddg` and a link whose parse raises `ValueError` both fall back to the
origin-prefixed path. -/
theorem c1_redirect_link_resolution_witness :
    resolveLink "/l/?uddg=https%3A%2F%2Fexample.com%2Fa&rut=h" = "https://example.com/a" ∧
    resolveLink "/html?q=test" = "https://duckduckgo.com" ++ "/html?q=test" ∧
    resolveLink "//[x?uddg=y" = "https://duckduckgo.com" ++ "//[x?uddg=y" := by
  refine ⟨?_, ?_, ?_⟩
  · exact (c1_redirect_link_resolution "/l/?uddg=https%3A%2F%2Fexample.com%2Fa&rut=h" (by rfl)).1
      "uddg=https%3A%2F%2Fexample.com%2Fa&rut=h" ("uddg", ["https://example.com/a"])
      "https://example.com/a" [] rfl rfl rfl
  · exact (c1_redirect_link_resolution "/html?q=test" (by rfl)).2.1 "q=test" rfl rfl
  · exact (c1_redirect_link_resolution "//[x?uddg=y" (by rfl)).2.2
      (.valueError "Invalid IPv6 URL") rfl

/-- Claim C2 (amended): for every positive requested maximum, the
extractor returns at most that many result records, and once the
collected count reaches the maximum, blocks appended after that point do
not change the output (the loop broke before examining them).  With a
maximum of zero the loop still emits the first valid record, which is
what the counterexample exhibits. -/
theorem c2_result_count_bounded (blocks extra : List ResultBlock) (n : Nat) (h : 1 ≤ n) :
    (extractResults blocks n).length ≤ n ∧
    ((extractResults blocks n).length = n →
      extractResults (blocks ++ extra) n = extractResults blocks n) := by
  constructor
  · exact extractLoop_length_le n blocks [] h
  · intro hfull
    exact extractLoop_stop n blocks extra [] h hfull

/-- Witness for claim C2 (amended): with maximum 2 and three valid
blocks, two records come back, and the third block is never examined. -/
theorem c2_result_count_bounded_witness :
    (extractResults [⟨some ⟨"a", "u"⟩, some "s"⟩, ⟨some ⟨"b", "v"⟩, some "t"⟩] 2).length ≤ 2 ∧
    extractResults ([⟨some ⟨"a", "u"⟩, some "s"⟩, ⟨some ⟨"b", "v"⟩, some "t"⟩] ++
        [⟨some ⟨"c", "w"⟩, some "r"⟩]) 2 =
      extractResults [⟨some ⟨"a", "u"⟩, some "s"⟩, ⟨some ⟨"b", "v"⟩, some "t"⟩] 2 := by
  have h := c2_result_count_bounded [⟨some ⟨"a", "u"⟩, some "s"⟩, ⟨some ⟨"b", "v"⟩, some "t"⟩]
    [⟨some ⟨"c", "w"⟩, some "r"⟩] 2 (by decide)
  exact ⟨h.1, h.2 (by rfl)⟩

/-- Counterexample to claim C2 as stated: with requested maximum 0 the
extractor still returns one record for a page with one valid block,
because the length check runs only after a record is appended. -/
theorem c2_counterexample_zero_max :
    ¬ ((extractResults [⟨some ⟨"t", "u"⟩, some "s"⟩] 0).length ≤ 0) := by decide

/-- Claim C3: every transport failure of the search request yields
exactly one record whose content is the error description (not an empty
list, and no exception: `search_duckduckgo` returns the sentinel list and
`web_search` formats it as an error message). -/
theorem c3_transport_failure_sentinel (msg : String) (n : Nat) :
    search_duckduckgo (.failure msg) n = [[("error", msg)]] ∧
    (search_duckduckgo (.failure msg) n).length = 1 ∧
    web_search (.failure msg) = "Error: " ++ msg := by
  refine ⟨rfl, rfl, ?_⟩
  simp [web_search, search_duckduckgo, recHasKey, recGet]

/-- Claim C7: result blocks lacking the title element or the snippet
element are silently skipped: the extraction output is unchanged when
those blocks are removed from the page, so they contribute no record, do
not count toward the maximum, and produce no error. -/
theorem c7_invalid_blocks_skipped (blocks : List ResultBlock) (n : Nat) :
    extractResults blocks n =
      extractResults (blocks.filter (fun b => b.titleElem.isSome && b.snippetText.isSome)) n :=
  extractLoop_filter n blocks []

/-! ## Lemmas about the repository-content operations -/

/-- Spec-side description of one directory-listing block: the entry's
type, name, path, and size, with size `N/A` for non-file entries, in the
layout of the directory listing. -/
def dirItemSpec (it : JVal) : String :=
  match it with
  | .obj fs =>
    let t := (objFind fs "type").getD .null
    let nm := (objFind fs "name").getD .null
    let pth := (objFind fs "path").getD .null
    let sz := if jEqStr t "file" then (objFind fs "size").getD (.str "N/A") else JVal.str "N/A"
    "\nType: " ++ pyStr t ++ "\nName: " ++ pyStr nm ++ "\nPath: " ++ pyStr pth ++
      "\nSize: " ++ pyStr sz ++ " bytes\n"
  | _ => ""

/-- A directory entry carrying the three mandatory fields. -/
def dirItemWF : JVal → Bool
  | .obj fs => objHasKey fs "type" && objHasKey fs "name" && objHasKey fs "path"
  | _ => false

theorem objHasKey_of_find (fs : List (String × JVal)) (k : String) (v : JVal)
    (h : objFind fs k = some v) : objHasKey fs k = true := by
  induction fs with
  | nil => simp [objFind] at h
  | cons p rest ih =>
    by_cases hk : p.1 == k
    · simp [objHasKey, hk]
    · simp only [objFind, List.find?, hk] at h
      simp only [objHasKey, List.any_cons, hk, Bool.false_or]
      exact ih h

theorem objFind_isSome_of_hasKey (fs : List (String × JVal)) (k : String)
    (h : objHasKey fs k = true) : ∃ v, objFind fs k = some v := by
  induction fs with
  | nil => simp [objHasKey] at h
  | cons p rest ih =>
    by_cases hk : p.1 == k
    · exact ⟨p.2, by simp [objFind, List.find?, hk]⟩
    · simp only [objHasKey, List.any_cons, hk, Bool.false_or] at h
      obtain ⟨v, hv⟩ := ih h
      exact ⟨v, by simp only [objFind, List.find?, hk]; exact hv⟩

theorem objFind_none_of_not_hasKey (fs : List (String × JVal)) (k : String)
    (h : objHasKey fs k = false) : objFind fs k = none := by
  induction fs with
  | nil => rfl
  | cons p rest ih =>
    simp only [objHasKey, List.any_cons, Bool.or_eq_false_iff] at h
    simp only [objFind, List.find?, h.1]
    exact ih h.2

/-- A well-formed directory entry formats to its spec-side block. -/
theorem formatDirItem_wf (it : JVal) (h : dirItemWF it = true) :
    formatDirItem it = .ok (dirItemSpec it) := by
  match it with
  | .null | .bool _ | .num _ | .str _ | .arr _ => simp [dirItemWF] at h
  | .obj fs =>
    simp only [dirItemWF, Bool.and_eq_true] at h
    obtain ⟨⟨ht, hn⟩, hp⟩ := h
    obtain ⟨t, hht⟩ := objFind_isSome_of_hasKey fs "type" ht
    obtain ⟨nm, hhn⟩ := objFind_isSome_of_hasKey fs "name" hn
    obtain ⟨pth, hhp⟩ := objFind_isSome_of_hasKey fs "path" hp
    simp only [formatDirItem, pySubscr, hht, hhn, hhp, pyBind_ok, dirItemSpec, Option.getD_some]
    by_cases hf : jEqStr t "file"
    · simp only [hf, if_true, pyGet, pyBind_ok]
      rfl
    · simp only [hf, if_false, pyBind_ok]
      rfl

/-- The directory formatting loop over well-formed entries never raises
and produces one block per entry, in order. -/
theorem dirBlocks_wf (items : List JVal) (h : items.all dirItemWF = true) :
    dirBlocks items = .ok (items.map dirItemSpec) := by
  induction items with
  | nil => rfl
  | cons it rest ih =>
    simp only [List.all_cons, Bool.and_eq_true] at h
    simp only [dirBlocks, formatDirItem_wf it h.1, pyBind_ok, ih h.2, List.map_cons]
    rfl

/-- A well-formed entry is an object, hence never equal to a string. -/
theorem jEqStr_false_of_wf (it : JVal) (h : dirItemWF it = true) (s : String) :
    jEqStr it s = false := by
  match it with
  | .obj _ => rfl
  | .null | .bool _ | .num _ | .str _ | .arr _ => simp [dirItemWF] at h

theorem any_jEqStr_false (items : List JVal) (h : items.all dirItemWF = true) (s : String) :
    items.any (fun x => jEqStr x s) = false := by
  induction items with
  | nil => rfl
  | cons it rest ih =>
    simp only [List.all_cons, Bool.and_eq_true] at h
    simp only [List.any_cons, jEqStr_false_of_wf it h.1 s, Bool.false_or]
    exact ih h.2

/-- The code-search formatting loop never raises over dict-shaped items:
`dict.get` supplies `Unknown` defaults for the missing fields. -/
theorem searchBlocks_ok (xs : List JVal) :
    ∀ i : Nat, xs.all isObj = true → ∃ bs, searchBlocks i xs = .ok bs := by
  induction xs with
  | nil => intro i _; exact ⟨[], rfl⟩
  | cons it rest ih =>
    intro i h
    simp only [List.all_cons, Bool.and_eq_true] at h
    match it, h.1 with
    | .obj fs, _ =>
      obtain ⟨bs, hbs⟩ := ih (i + 1) h.2
      have hstep : searchBlocks i (JVal.obj fs :: rest) =
          .ok (("\nResult " ++ toString i ++ ":\nName: " ++
            pyStr ((objFind fs "name").getD (.str "Unknown")) ++ "\nPath: " ++
            pyStr ((objFind fs "path").getD (.str "Unknown")) ++ "\nURL: " ++
            pyStr ((objFind fs "html_url").getD (.str "Unknown")) ++ "\n") :: bs) := by
        simp only [searchBlocks, pyGet, pyBind_ok, hbs]
        rfl
      exact ⟨_, hstep⟩

/-! ## Claim theorems for the repository-content operations -/

/-- Claim C4 (amended): for every repository reference that does not
split into exactly two slash-separated parts, each of the file-fetch,
directory-list, and code-search operations returns the validation error
message without issuing any network call.  The implementation checks
only the part count, not non-emptiness: a reference such as `/x` splits
into two parts, one of them empty, and still reaches the network — that
is what the counterexample exhibits. -/
theorem c4_malformed_repo_validation (resp : HttpResponse) (repo file_path path : String)
    (h : (pySplit repo '/').length ≠ 2) :
    github_get_file resp repo file_path = (.ok (repoFormatError repo), false) ∧
    github_list_directory resp repo path = (.ok (repoFormatError repo), false) ∧
    github_search_code resp repo = (.ok (repoFormatError repo), false) := by
  refine ⟨?_, ?_, ?_⟩ <;>
    simp only [github_get_file, github_list_directory, github_search_code] <;>
    rw [if_pos h]

/-- Witness for claim C4 (amended): a three-part reference is rejected by
all three operations with no network call. -/
theorem c4_malformed_repo_validation_witness :
    github_get_file ⟨200, "", .null⟩ "a/b/c" "f" = (.ok (repoFormatError "a/b/c"), false) ∧
    github_list_directory ⟨200, "", .null⟩ "a/b/c" "p" = (.ok (repoFormatError "a/b/c"), false) ∧
    github_search_code ⟨200, "", .null⟩ "a/b/c" = (.ok (repoFormatError "a/b/c"), false) :=
  c4_malformed_repo_validation ⟨200, "", .null⟩ "a/b/c" "f" "p" (by decide)

/-- Counterexample to claim C4 as stated: the reference `/x` does not
split into two non-empty parts (its first part is empty), yet the
file-fetch operation issues the network call and returns the transport
error instead of the validation message; the other two operations issue
the call as well. -/
theorem c4_counterexample_empty_owner :
    (github_get_file ⟨404, "nf", .null⟩ "/x" "p").2 = true ∧
    (github_get_file ⟨404, "nf", .null⟩ "/x" "p").1 = .ok "Error: GitHub API error: 404 - nf" ∧
    (github_list_directory ⟨404, "nf", .null⟩ "/x" "p").2 = true ∧
    (github_search_code ⟨404, "nf", .null⟩ "/x").2 = true := by
  refine ⟨rfl, by rfl, rfl, rfl⟩

/-- Claim C5: for every API response that is a dict with type `file`, a
`content` field, and encoding `base64` (and no transport-error marker),
the file-fetch operation returns exactly the base64-decoded UTF-8 text of
the content field. -/
theorem c5_get_file_decoded_text (resp : HttpResponse) (repo file_path content text : String)
    (fields : List (String × JVal))
    (hrepo : (pySplit repo '/').length = 2)
    (hstatus : resp.status_code = 200)
    (hjson : resp.json = .obj fields)
    (hnoerr : objHasKey fields "error" = false)
    (htype : objFind fields "type" = some (.str "file"))
    (hcontent : objFind fields "content" = some (.str content))
    (henc : objFind fields "encoding" = some (.str "base64"))
    (hdec : pyB64DecodeUtf8 content = .ok text) :
    github_get_file resp repo file_path = (.ok text, true) := by
  have hT := objHasKey_of_find fields "type" _ htype
  have hC := objHasKey_of_find fields "content" _ hcontent
  simp only [github_get_file, hrepo, ne_eq, not_true_eq_false, if_false,
    get_github_contents, hstatus, hjson, githubGetFileBody, pyIn, hnoerr, pyBind_ok,
    Bool.false_eq_true, if_false, hT, hC, isObj, Bool.and_self, if_true,
    pySubscr, htype, hcontent, henc, jEqStr, hdec]
  rfl

/-- Witness for claim C5: the content `aGVsbG8=` decodes to `hello`. -/
theorem c5_get_file_decoded_text_witness :
    github_get_file ⟨200, "", .obj [("type", .str "file"), ("content", .str "aGVsbG8="),
        ("encoding", .str "base64")]⟩ "o/r" "f" = (.ok "hello", true) :=
  c5_get_file_decoded_text ⟨200, "", .obj [("type", .str "file"), ("content", .str "aGVsbG8="),
      ("encoding", .str "base64")]⟩ "o/r" "f" "aGVsbG8=" "hello" _
    (by rfl) rfl rfl (by rfl) (by rfl) (by rfl) (by rfl) (by rfl)

/-- Claim C6: for every directory-type response whose entries carry the
type, name, and path fields, the directory-list operation returns one
formatted block per entry, in input order, each showing the entry's type,
name, path, and size, with size `N/A` for non-file entries. -/
theorem c6_list_directory_blocks (resp : HttpResponse) (repo path : String) (items : List JVal)
    (hrepo : (pySplit repo '/').length = 2)
    (hstatus : resp.status_code = 200)
    (hjson : resp.json = .arr items)
    (hwf : items.all dirItemWF = true) :
    github_list_directory resp repo path =
      (.ok (String.intercalate "\n---\n" (items.map dirItemSpec)), true) ∧
    dirBlocks items = .ok (items.map dirItemSpec) := by
  refine ⟨?_, dirBlocks_wf items hwf⟩
  simp only [github_list_directory, hrepo, ne_eq, not_true_eq_false, if_false,
    get_github_contents, hstatus, hjson, githubListDirectoryBody, pyIn,
    any_jEqStr_false items hwf, pyBind_ok, Bool.false_eq_true, if_false,
    dirBlocks_wf items hwf]
  rfl

/-- Witness for claim C6: a file entry shows its size and a directory
entry shows `N/A`. -/
theorem c6_list_directory_blocks_witness :
    github_list_directory ⟨200, "", .arr [.obj [("type", .str "file"), ("name", .str "a.txt"),
        ("path", .str "a.txt"), ("size", .num 10)], .obj [("type", .str "dir"),
        ("name", .str "src"), ("path", .str "src")]]⟩ "o/r" "p" =
      (.ok ("\nType: file\nName: a.txt\nPath: a.txt\nSize: 10 bytes\n\n---\n" ++
        "\nType: dir\nName: src\nPath: src\nSize: N/A bytes\n"), true) := by
  have h := (c6_list_directory_blocks ⟨200, "", .arr [.obj [("type", .str "file"),
    ("name", .str "a.txt"), ("path", .str "a.txt"), ("size", .num 10)],
    .obj [("type", .str "dir"), ("name", .str "src"), ("path", .str "src")]]⟩
    "o/r" "p" [.obj [("type", .str "file"), ("name", .str "a.txt"), ("path", .str "a.txt"),
    ("size", .num 10)], .obj [("type", .str "dir"), ("name", .str "src"), ("path", .str "src")]]
    (by rfl) rfl rfl (by rfl)).1
  rw [h]
  rfl

/-- Claim C8: the connectivity check never raises to its caller: a raised
probe exception becomes an error message, a non-success status becomes a
status error message, a success reports the remaining quota, and even an
exception inside the quota extraction is caught and surfaced textually. -/
theorem c8_check_connection_never_raises (o : ProbeOutcome) :
    (∀ m, o = .raised m → check_github_connection o = "Error: " ++ m) ∧
    (∀ r, o = .response r → r.status_code ≠ 200 →
        check_github_connection o =
          "Error connecting to GitHub API: " ++ toString r.status_code ++ " - " ++ r.text) ∧
    (∀ r v, o = .response r → r.status_code = 200 → rateRemaining r.json = .ok v →
        check_github_connection o =
          "GitHub API connection successful. Remaining rate limit: " ++ pyStr v ++ " requests.") ∧
    (∀ r e, o = .response r → r.status_code = 200 → rateRemaining r.json = .error e →
        check_github_connection o = "Error: " ++ excStr e) := by
  refine ⟨?_, ?_, ?_, ?_⟩
  · intro m hm; subst hm; rfl
  · intro r hr hs; subst hr
    simp only [check_github_connection, checkConnBody, hs, if_false]
    rfl
  · intro r v hr hs hrate; subst hr
    simp only [check_github_connection, checkConnBody, hs, if_true, hrate, pyBind_ok]
    rfl
  · intro r e hr hs hrate; subst hr
    simp only [check_github_connection, checkConnBody, hs, if_true, hrate, pyBind_err]

/-- Witness for claim C8: all four probe outcomes yield the expected
textual messages. -/
theorem c8_check_connection_never_raises_witness :
    check_github_connection (.raised "boom") = "Error: " ++ "boom" ∧
    check_github_connection (.response ⟨403, "x", .null⟩) =
      "Error connecting to GitHub API: " ++ toString (403 : Nat) ++ " - " ++ "x" ∧
    check_github_connection (.response ⟨200, "", .obj [("resources", .obj [("core",
        .obj [("remaining", .num 42)])])]⟩) =
      "GitHub API connection successful. Remaining rate limit: " ++ pyStr (.num 42) ++ " requests." ∧
    check_github_connection (.response ⟨200, "", .num 3⟩) =
      "Error: " ++ excStr (.attributeError "object has no attribute get") := by
  refine ⟨?_, ?_, ?_, ?_⟩
  · exact (c8_check_connection_never_raises (.raised "boom")).1 "boom" rfl
  · exact (c8_check_connection_never_raises (.response ⟨403, "x", .null⟩)).2.1
      ⟨403, "x", .null⟩ rfl (by decide)
  · exact (c8_check_connection_never_raises (.response ⟨200, "", .obj [("resources", .obj [("core",
      .obj [("remaining", .num 42)])])]⟩)).2.2.1 ⟨200, "", .obj [("resources", .obj [("core",
      .obj [("remaining", .num 42)])])]⟩ (.num 42) rfl rfl (by rfl)
  · exact (c8_check_connection_never_raises (.response ⟨200, "", .num 3⟩)).2.2.2
      ⟨200, "", .num 3⟩ (.attributeError "object has no attribute get") rfl rfl (by rfl)

/-- Claim C9 (amended): in the directory-listing formatting path an entry
lacking the `type` field is not guarded against — the `KeyError` raises
past the operation; in the code-search formatting path, however, missing
fields on dict-shaped items are guarded by `Unknown` defaults, so the
operation completes without raising (only a non-dict item would raise
there).  The counterexample exhibits the search path completing on an
item with every expected field missing. -/
theorem c9_missing_field_handling :
    (∀ (resp : HttpResponse) (repo path : String) (fs : List (String × JVal)) (rest : List JVal),
        (pySplit repo '/').length = 2 → resp.status_code = 200 →
        resp.json = .arr (.obj fs :: rest) → objHasKey fs "type" = false →
        rest.any (fun x => jEqStr x "error") = false →
        (github_list_directory resp repo path).1 = .error (.keyError "type")) ∧
    (∀ (resp : HttpResponse) (repo : String) (fields : List (String × JVal)) (xs : List JVal),
        (pySplit repo '/').length = 2 → resp.status_code = 200 →
        resp.json = .obj fields → objFind fields "items" = some (.arr xs) →
        xs ≠ [] → xs.all isObj = true →
        ∃ s, (github_search_code resp repo).1 = .ok s) := by
  constructor
  · intro resp repo path fs rest hrepo hstatus hjson htype herr
    have hfind := objFind_none_of_not_hasKey fs "type" htype
    have h0 : jEqStr (JVal.obj fs) "error" = false := rfl
    simp only [github_list_directory, hrepo, ne_eq, not_true_eq_false, if_false,
      get_github_contents, hstatus, hjson, githubListDirectoryBody, pyIn,
      List.any_cons, h0, herr, Bool.false_or, Bool.or_false, pyBind_ok,
      Bool.false_eq_true, if_false, dirBlocks, formatDirItem, pySubscr, hfind, pyBind_err]
  · intro resp repo fields xs hrepo hstatus hjson hitems hne hobj
    obtain ⟨bs, hbs⟩ := searchBlocks_ok xs 1 hobj
    refine ⟨String.intercalate "\n---\n" bs, ?_⟩
    have htruthy : jTruthy (.arr xs) = true := by
      match xs, hne with
      | x :: rest, _ => rfl
    simp only [github_search_code, hrepo, ne_eq, not_true_eq_false, if_false,
      githubSearchCodeBody, hstatus, hjson, pyGet, hitems, Option.getD_some, pyBind_ok,
      htruthy, Bool.not_true, Bool.false_eq_true, if_false, hbs]
    rfl

/-- Witness for claim C9 (amended): a directory entry without `type`
raises `KeyError`, while a search item with no expected fields at all is
formatted with `Unknown` placeholders. -/
theorem c9_missing_field_handling_witness :
    (github_list_directory ⟨200, "", .arr [.obj [("name", .str "x")]]⟩ "o/r" "p").1 =
      .error (.keyError "type") ∧
    ∃ s, (github_search_code ⟨200, "", .obj [("items", .arr [.obj [("a", .null)]])]⟩ "o/r").1 =
      .ok s := by
  constructor
  · exact c9_missing_field_handling.1 ⟨200, "", .arr [.obj [("name", .str "x")]]⟩ "o/r" "p"
      [("name", .str "x")] [] (by rfl) rfl rfl (by rfl) (by rfl)
  · exact c9_missing_field_handling.2 ⟨200, "", .obj [("items", .arr [.obj [("a", .null)]])]⟩
      "o/r" [("items", .arr [.obj [("a", .null)]])] [.obj [("a", .null)]]
      (by rfl) rfl rfl (by rfl) (by simp) (by rfl)

/-- Counterexample to claim C9 as stated: a code-search item lacking the
expected `name`, `path`, and `html_url` fields does not raise past the
operation — the operation completes and substitutes `Unknown` for every
missing field. -/
theorem c9_counterexample_search_defaults :
    (github_search_code ⟨200, "", .obj [("items", .arr [.obj []])]⟩ "o/r").1 =
      .ok "\nResult 1:\nName: Unknown\nPath: Unknown\nURL: Unknown\n" := by rfl

/-- Claim C10: an API response that is a dict with type `file` and a
`content` field but no `encoding` field makes the file-fetch operation
raise `KeyError` instead of returning an error-describing string, because
`contents["encoding"]` is indexed without a presence check. -/
theorem c10_missing_encoding_keyerror :
    github_get_file ⟨200, "", .obj [("type", .str "file"), ("content", .str "aGVsbG8=")]⟩
      "o/r" "f.txt" = (.error (.keyError "encoding"), true) := by rfl

end McpSpec
